import Mathlib

/-!
The HTTP handlers of `cmd/app/main.go` (go-rest-api).

A shallow embedding of the four handlers registered in `run`
(`createUserHandler`, `userByIDHandler`, `createProfileHandler`,
`profileByIDHandler`) together with the library behaviour they rely on.

* A handler is a function from the request and the storage state to an
  `Outcome`: the response written, the storage state afterwards and the
  list of SQL statements it issued, in order.
* `*sql.DB` is a record `DB σ` of the six statements that occur in the
  source, over an arbitrary state type `σ`.  Handler-level facts are proved
  for every such record, so they hold whatever the database answers.
* `encoding/json` decoding of the request body is a record `Codec` of the
  three decoders (one per request struct); `none` stands for a non-nil
  error from `Decode`.
* `strings.TrimPrefix` and `strconv.Atoi` are embedded from the Go
  standard library (64-bit `int`).
* `memDB` is an in-memory relational model of the two tables, used for the
  properties that speak about stored rows.
-/

namespace RestApi

/-! ## Data model (`main.go` lines 16-28) -/

/-- Row of the `users` table; `CreatedAt` is the instant as an integer. -/
structure User where
  ID : Int
  Email : String
  Name : String
  CreatedAt : Int
deriving DecidableEq, Repr

/-- Row of the `profiles` table. -/
structure Profile where
  ID : Int
  UserID : Int
  Bio : String
  Age : Int
deriving DecidableEq, Repr

/-! ## `net/http` -/

abbrev MethodGet : String := "GET"
abbrev MethodPost : String := "POST"
abbrev MethodPut : String := "PUT"
abbrev MethodDelete : String := "DELETE"

abbrev StatusOK : Nat := 200
abbrev StatusCreated : Nat := 201
abbrev StatusNoContent : Nat := 204
abbrev StatusBadRequest : Nat := 400
abbrev StatusNotFound : Nat := 404
abbrev StatusMethodNotAllowed : Nat := 405
abbrev StatusInternalServerError : Nat := 500

/-- The parts of `*http.Request` the handlers read: `r.Method`,
`r.URL.Path` and the bytes of `r.Body`. -/
structure Request where
  Method : String
  Path : String
  Body : String
deriving DecidableEq, Repr

/-- What a handler encodes into the response body. -/
inductive Payload where
  | empty
  | id (n : Int)
  | user (u : User)
  | profile (p : Profile)
deriving DecidableEq, Repr

/-- The response: status code, headers set by the handler, body. -/
structure Response where
  status : Nat
  header : List (String × String)
  body : Payload
deriving DecidableEq, Repr

/-- The response of `w.WriteHeader(code); return`: a bare status code. -/
def writeHeader (code : Nat) : Response :=
  { status := code, header := [], body := Payload.empty }

/-! ## `strings.TrimPrefix`, `strconv.Atoi` -/

/-- The list `l` without the leading `p`, when `l` starts with `p`. -/
def dropLeading : List Char → List Char → Option (List Char)
  | [], l => some l
  | _ :: _, [] => none
  | a :: p, b :: l => if a = b then dropLeading p l else none

/-- Go's `strings.TrimPrefix(s, pre)`: `s` without the leading `pre`, or `s`
itself when it does not start with `pre`. -/
def TrimPrefix (s pre : String) : String :=
  match dropLeading pre.data s.data with
  | some rest => String.mk rest
  | none => s

/-- The digit loop of `strconv.Atoi`: `ch -= 48; if ch > 9 then error`,
`n = n*10 + ch`. -/
def atoiDigits : List Char → Nat → Option Nat
  | [], n => some n
  | ch :: cs, n =>
    if 48 ≤ ch.toNat ∧ ch.toNat ≤ 57 then atoiDigits cs (n * 10 + (ch.toNat - 48))
    else none

/-- The part of `strconv.Atoi` after the sign has been stripped: at least
one byte, all of them digits, and the signed value within the 64-bit `int`
range `[-2^63, 2^63 - 1]` (the fast path for fewer than 19 bytes cannot leave
the range; the `ParseInt(s, 10, 0)` path reports a range error). -/
def atoiUnsigned (neg : Bool) (ds : List Char) : Option Int :=
  match ds with
  | [] => none
  | d :: ds' =>
    match atoiDigits (d :: ds') 0 with
    | none => none
    | some n =>
      if neg then (if n ≤ 2 ^ 63 then some (-(n : Int)) else none)
      else (if n < 2 ^ 63 then some (n : Int) else none)

/-- Go's `strconv.Atoi` for a 64-bit `int`; `none` is a non-nil error.  An
optional leading `+` or `-`, then the digits. -/
def Atoi (s : String) : Option Int :=
  match s.data with
  | [] => none
  | c :: rest =>
    if c = '-' then atoiUnsigned true rest
    else if c = '+' then atoiUnsigned false rest
    else atoiUnsigned false (c :: rest)

/-! ## `encoding/json` -/

/-- The `request` struct of `createUserHandler`. -/
structure CreateUserRequest where
  Email : String
  Name : String
deriving DecidableEq, Repr

/-- The `request` struct of the `PUT` branch of `userByIDHandler`. -/
structure UpdateUserRequest where
  Name : String
deriving DecidableEq, Repr

/-- The `request` struct of `createProfileHandler`. -/
structure CreateProfileRequest where
  UserID : Int
  Bio : String
  Age : Int
deriving DecidableEq, Repr

/-- The call `json.NewDecoder(r.Body).Decode(&req)` for each of the three
request structs, starting from the zero value: `some req` when `Decode`
returns a nil error, `none` when it returns an error.  Which bodies are
accepted is the library's matter and is left open. -/
structure Codec where
  createUser : String → Option CreateUserRequest
  updateUser : String → Option UpdateUserRequest
  createProfile : String → Option CreateProfileRequest

/-! ## `database/sql` -/

/-- The six SQL statements of the source with their bound parameters. -/
inductive Stmt where
  | insertUser (email name : String)
  | selectUser (id : Int)
  | updateUserName (name : String) (id : Int)
  | deleteUser (id : Int)
  | insertProfile (userID : Int) (bio : String) (age : Int)
  | selectProfile (id : Int)
deriving DecidableEq, Repr

/-- Result of `db.QueryRowContext(...).Scan(...)`: the scanned row, the
error `sql.ErrNoRows`, or any other error. -/
inductive ScanResult (α : Type) where
  | ok (a : α)
  | errNoRows
  | err
deriving DecidableEq, Repr

/-- Result of `db.ExecContext(...)`: an error, or a `sql.Result` whose
`RowsAffected()` is a count (`some`) or an error (`none`). -/
inductive ExecResult where
  | err
  | result (rowsAffected : Option Int)
deriving DecidableEq, Repr

/-- The database handle `*sql.DB` as seen by the handlers: one operation
per statement, each answering and returning the next storage state. -/
structure DB (σ : Type) where
  insertUser : String → String → σ → ScanResult Int × σ
  selectUser : Int → σ → ScanResult User × σ
  updateUserName : String → Int → σ → ExecResult × σ
  deleteUser : Int → σ → ExecResult × σ
  insertProfile : Int → String → Int → σ → ScanResult Int × σ
  selectProfile : Int → σ → ScanResult Profile × σ

/-- What one handler invocation does: the response, the storage state
afterwards and the statements issued. -/
structure Outcome (σ : Type) where
  resp : Response
  state : σ
  stmts : List Stmt

/-! ## The handlers -/

/-- Lines 67-99: `createUserHandler`. -/
def createUserHandler {σ : Type} (json : Codec) (db : DB σ) (r : Request) (s : σ) :
    Outcome σ :=
  if r.Method ≠ MethodPost then
    ⟨writeHeader StatusMethodNotAllowed, s, []⟩
  else
    match json.createUser r.Body with
    | none => ⟨writeHeader StatusBadRequest, s, []⟩
    | some req =>
      match db.insertUser req.Email req.Name s with
      | (ScanResult.ok id, s') =>
        ⟨{ status := StatusCreated, header := [], body := Payload.id id }, s',
          [Stmt.insertUser req.Email req.Name]⟩
      | (_, s') =>
        ⟨writeHeader StatusInternalServerError, s', [Stmt.insertUser req.Email req.Name]⟩

/-- The tail of the `PUT` and `DELETE` branches (lines 163-180, 189-206):
status from the result of `ExecContext` and `RowsAffected`. -/
def execStatus : ExecResult → Nat
  | ExecResult.err => StatusInternalServerError
  | ExecResult.result none => StatusInternalServerError
  | ExecResult.result (some rows) => if rows = 0 then StatusNotFound else StatusNoContent

/-- Lines 101-214: `userByIDHandler`.  The identifier is parsed before the
method is looked at. -/
def userByIDHandler {σ : Type} (json : Codec) (db : DB σ) (r : Request) (s : σ) :
    Outcome σ :=
  let idStr := TrimPrefix r.Path "/users/"
  if idStr = "" then
    ⟨writeHeader StatusBadRequest, s, []⟩
  else
    match Atoi idStr with
    | none => ⟨writeHeader StatusBadRequest, s, []⟩
    | some id =>
      if r.Method = MethodGet then
        match db.selectUser id s with
        | (ScanResult.errNoRows, s') => ⟨writeHeader StatusNotFound, s', [Stmt.selectUser id]⟩
        | (ScanResult.err, s') =>
          ⟨writeHeader StatusInternalServerError, s', [Stmt.selectUser id]⟩
        | (ScanResult.ok user, s') =>
          ⟨{ status := StatusOK, header := [("Content-Type", "application/json")],
             body := Payload.user user }, s', [Stmt.selectUser id]⟩
      else if r.Method = MethodPut then
        match json.updateUser r.Body with
        | none => ⟨writeHeader StatusBadRequest, s, []⟩
        | some req =>
          if req.Name = "" then
            ⟨writeHeader StatusBadRequest, s, []⟩
          else
            match db.updateUserName req.Name id s with
            | (res, s') => ⟨writeHeader (execStatus res), s', [Stmt.updateUserName req.Name id]⟩
      else if r.Method = MethodDelete then
        match db.deleteUser id s with
        | (res, s') => ⟨writeHeader (execStatus res), s', [Stmt.deleteUser id]⟩
      else
        ⟨writeHeader StatusMethodNotAllowed, s, []⟩

/-- Lines 216-257: `createProfileHandler`. -/
def createProfileHandler {σ : Type} (json : Codec) (db : DB σ) (r : Request) (s : σ) :
    Outcome σ :=
  if r.Method ≠ MethodPost then
    ⟨writeHeader StatusMethodNotAllowed, s, []⟩
  else
    match json.createProfile r.Body with
    | none => ⟨writeHeader StatusBadRequest, s, []⟩
    | some req =>
      if req.UserID = 0 then
        ⟨writeHeader StatusBadRequest, s, []⟩
      else
        match db.insertProfile req.UserID req.Bio req.Age s with
        | (ScanResult.ok id, s') =>
          ⟨{ status := StatusCreated, header := [], body := Payload.id id }, s',
            [Stmt.insertProfile req.UserID req.Bio req.Age]⟩
        | (_, s') =>
          ⟨writeHeader StatusInternalServerError, s',
            [Stmt.insertProfile req.UserID req.Bio req.Age]⟩

/-- Lines 259-298: `profileByIDHandler`.  The method is checked before the
identifier is parsed. -/
def profileByIDHandler {σ : Type} (db : DB σ) (r : Request) (s : σ) : Outcome σ :=
  if r.Method ≠ MethodGet then
    ⟨writeHeader StatusMethodNotAllowed, s, []⟩
  else
    let idStr := TrimPrefix r.Path "/profiles/"
    if idStr = "" then
      ⟨writeHeader StatusBadRequest, s, []⟩
    else
      match Atoi idStr with
      | none => ⟨writeHeader StatusBadRequest, s, []⟩
      | some id =>
        match db.selectProfile id s with
        | (ScanResult.errNoRows, s') =>
          ⟨writeHeader StatusNotFound, s', [Stmt.selectProfile id]⟩
        | (ScanResult.err, s') =>
          ⟨writeHeader StatusInternalServerError, s', [Stmt.selectProfile id]⟩
        | (ScanResult.ok profile, s') =>
          ⟨{ status := StatusOK, header := [("Content-Type", "application/json")],
             body := Payload.profile profile }, s', [Stmt.selectProfile id]⟩

/-! ## In-memory relational storage -/

/-- Modelled from the spec: the relational storage behind `*sql.DB`; the
schema and the engine are not part of the source.  Two tables, `users` and
`profiles`, each with an integer primary key drawn from its own sequence
(`usersSeq`, `profilesSeq` hold the last value handed out); `clock` is the
instant the storage assigns to `created_at`.  No constraint links
`profiles.user_id` to `users.id`. -/
structure Store where
  users : List User
  profiles : List Profile
  usersSeq : Nat
  profilesSeq : Nat
  clock : Int
deriving DecidableEq, Repr

/-- The storage with no rows and both sequences unused. -/
def Store.init : Store :=
  { users := [], profiles := [], usersSeq := 0, profilesSeq := 0, clock := 0 }

/-- Modelled from the spec: `INSERT INTO users (email, name) VALUES ($1, $2)
RETURNING id` on the in-memory tables.  The identity is the next value of
the sequence and `created_at` the storage clock; the statement fails on a
primary-key collision (the sequence value stays consumed). -/
def Store.insertUser (email name : String) (s : Store) : ScanResult Int × Store :=
  let id : Int := ((s.usersSeq + 1 : Nat) : Int)
  if s.users.any (fun u => decide (u.ID = id)) then
    (ScanResult.err, { s with usersSeq := s.usersSeq + 1 })
  else
    (ScanResult.ok id,
      { s with users := s.users ++ [{ ID := id, Email := email, Name := name,
                                      CreatedAt := s.clock }],
               usersSeq := s.usersSeq + 1 })

/-- Modelled from the spec: `SELECT id,email,name,created_at FROM users
WHERE id=$1` on the in-memory tables; the first matching row, or
`sql.ErrNoRows`. -/
def Store.selectUser (id : Int) (s : Store) : ScanResult User × Store :=
  match s.users.find? (fun u => decide (u.ID = id)) with
  | some u => (ScanResult.ok u, s)
  | none => (ScanResult.errNoRows, s)

/-- Modelled from the spec: `UPDATE users SET name = $1 WHERE id = $2` on
the in-memory tables; the rows affected are the rows of that identity. -/
def Store.updateUserName (name : String) (id : Int) (s : Store) : ExecResult × Store :=
  (ExecResult.result (some ((s.users.countP (fun u => decide (u.ID = id)) : Nat) : Int)),
    { s with users := s.users.map (fun u => if u.ID = id then { u with Name := name } else u) })

/-- Modelled from the spec: `DELETE FROM users WHERE id = $1` on the
in-memory tables; the rows affected are the rows of that identity, and the
profiles table is not touched. -/
def Store.deleteUser (id : Int) (s : Store) : ExecResult × Store :=
  (ExecResult.result (some ((s.users.countP (fun u => decide (u.ID = id)) : Nat) : Int)),
    { s with users := s.users.filter (fun u => decide (u.ID ≠ id)) })

/-- Modelled from the spec: `INSERT INTO profiles (user_id, bio, age) VALUES
($1, $2, $3) RETURNING id` on the in-memory tables; `user_id` is stored as
given, without a look at the users table. -/
def Store.insertProfile (userID : Int) (bio : String) (age : Int) (s : Store) :
    ScanResult Int × Store :=
  let id : Int := ((s.profilesSeq + 1 : Nat) : Int)
  if s.profiles.any (fun p => decide (p.ID = id)) then
    (ScanResult.err, { s with profilesSeq := s.profilesSeq + 1 })
  else
    (ScanResult.ok id,
      { s with profiles := s.profiles ++ [{ ID := id, UserID := userID, Bio := bio,
                                            Age := age }],
               profilesSeq := s.profilesSeq + 1 })

/-- Modelled from the spec: `SELECT id, user_id, bio, age FROM profiles
WHERE ID =$1` on the in-memory tables; the first matching row, or
`sql.ErrNoRows`. -/
def Store.selectProfile (id : Int) (s : Store) : ScanResult Profile × Store :=
  match s.profiles.find? (fun p => decide (p.ID = id)) with
  | some p => (ScanResult.ok p, s)
  | none => (ScanResult.errNoRows, s)

/-- Modelled from the spec: the database handle over the in-memory
storage; every statement is answered from the two tables and none fails
except an insert that collides with an existing primary key. -/
def memDB : DB Store :=
  { insertUser := Store.insertUser
    selectUser := Store.selectUser
    updateUserName := Store.updateUserName
    deleteUser := Store.deleteUser
    insertProfile := Store.insertProfile
    selectProfile := Store.selectProfile }

/-! ## Fixtures -/

/-- A decoder that knows a handful of literal bodies (the answers Go gives
for them) and reports an error for every other body. -/
def sampleCodec : Codec :=
  { createUser := fun b =>
      if b = "\x7b\"email\":\"ann@example.org\",\"name\":\"Ann\"\x7d" then
        some { Email := "ann@example.org", Name := "Ann" }
      else none
    updateUser := fun b =>
      if b = "\x7b\"name\":\"Bob\"\x7d" then some { Name := "Bob" }
      else if b = "\x7b\"name\":\"\"\x7d" then some { Name := "" }
      else if b = "\x7b\x7d" then some { Name := "" }
      else none
    createProfile := fun b =>
      if b = "\x7b\"user_id\":7,\"bio\":\"hi\",\"age\":30\x7d" then
        some { UserID := 7, Bio := "hi", Age := 30 }
      else if b = "\x7b\"user_id\":0,\"bio\":\"hi\",\"age\":30\x7d" then
        some { UserID := 0, Bio := "hi", Age := 30 }
      else none }

/-- A storage holding one user (identity 1) and one profile owned by it. -/
def sampleStore : Store :=
  { users := [{ ID := 1, Email := "ann@example.org", Name := "Ann", CreatedAt := 5 }]
    profiles := [{ ID := 1, UserID := 1, Bio := "hi", Age := 30 }]
    usersSeq := 1
    profilesSeq := 1
    clock := 9 }

/-- A decoder for two bodies that are not a JSON object of the request's
shape and that Go's `Decode` nevertheless accepts with a nil error, with the
answers Go gives for them; every other body is reported as an error.
The body `null` leaves the request struct at its zero value.  In the body
`{"name":"Bob"}x` the decoder reads the first JSON value of the stream and
leaves the bytes after it unread. -/
def lenientCodec : Codec :=
  { createUser := fun b =>
      if b = "null" then some { Email := "", Name := "" }
      else if b = "\x7b\"name\":\"Bob\"\x7dx" then some { Email := "", Name := "Bob" }
      else none
    updateUser := fun b =>
      if b = "null" then some { Name := "" }
      else if b = "\x7b\"name\":\"Bob\"\x7dx" then some { Name := "Bob" }
      else none
    createProfile := fun b =>
      if b = "null" then some { UserID := 0, Bio := "", Age := 0 }
      else if b = "\x7b\"name\":\"Bob\"\x7dx" then some { UserID := 0, Bio := "", Age := 0 }
      else none }

/-! ## Decimal notation -/

/-- The ten decimal digits, in order of value. -/
def decimalDigits : List Char := ['0', '1', '2', '3', '4', '5', '6', '7', '8', '9']

/-- The value of a decimal digit: its position among `0123456789`. -/
def digitValue (c : Char) : Nat := decimalDigits.indexOf c

/-- The number a string of decimal digits denotes, most significant digit
first. -/
def decimalValue (ds : List Char) : Nat := Nat.ofDigits 10 (ds.reverse.map digitValue)

/-- The string `t` is the decimal notation of the integer `n` of the `int`
range: one or more decimal digits, optionally preceded by `+` or `-`. -/
def DenotesInt (t : String) (n : Int) : Prop :=
  ∃ ds : List Char, ds ≠ [] ∧ (∀ c ∈ ds, c ∈ decimalDigits) ∧
    ((t.data = ds ∨ t.data = '+' :: ds) ∧ n = (decimalValue ds : Int) ∨
      t.data = '-' :: ds ∧ n = -(decimalValue ds : Int)) ∧
    -(2 : Int) ^ 63 ≤ n ∧ n < (2 : Int) ^ 63

/-! ## Helper lemmas -/

theorem Atoi_empty : Atoi "" = none := rfl

theorem digit_test_iff (c : Char) : (48 ≤ c.toNat ∧ c.toNat ≤ 57) ↔ c ∈ decimalDigits := by
  constructor
  · rintro ⟨h1, h2⟩
    have hc : c = Char.ofNat c.toNat := (Char.ofNat_toNat c).symm
    generalize c.toNat = n at hc h1 h2
    subst hc
    interval_cases n <;> decide
  · intro h
    simp only [decimalDigits, List.mem_cons, List.mem_singleton, List.not_mem_nil,
      or_false] at h
    rcases h with h | h | h | h | h | h | h | h | h | h <;> subst h <;> decide

theorem digitValue_eq (c : Char) (h : c ∈ decimalDigits) : c.toNat - 48 = digitValue c := by
  simp only [decimalDigits, List.mem_cons, List.mem_singleton, List.not_mem_nil,
    or_false] at h
  rcases h with h | h | h | h | h | h | h | h | h | h <;> subst h <;> decide

theorem sign_not_digit : '-' ∉ decimalDigits ∧ '+' ∉ decimalDigits := by decide

theorem decimalValue_cons (c : Char) (cs : List Char) :
    decimalValue (c :: cs) = digitValue c * 10 ^ cs.length + decimalValue cs := by
  simp [decimalValue, Nat.ofDigits_append, Nat.mul_comm, Nat.add_comm]

/-- The digit loop accepts exactly the digit strings and computes their
decimal value on top of the accumulator. -/
theorem atoiDigits_eq_some_iff (ds : List Char) (k n : Nat) :
    atoiDigits ds k = some n ↔
      (∀ c ∈ ds, c ∈ decimalDigits) ∧ n = k * 10 ^ ds.length + decimalValue ds := by
  induction ds generalizing k with
  | nil => simp [atoiDigits, decimalValue, eq_comm]
  | cons c cs ih =>
    by_cases hc : 48 ≤ c.toNat ∧ c.toNat ≤ 57
    · have hmem := (digit_test_iff c).1 hc
      rw [atoiDigits, if_pos hc, ih, decimalValue_cons, digitValue_eq c hmem]
      simp only [List.mem_cons, forall_eq_or_imp, hmem, true_and, List.length_cons]
      constructor
      · rintro ⟨h1, h2⟩
        exact ⟨h1, by rw [h2]; ring⟩
      · rintro ⟨h1, h2⟩
        exact ⟨h1, by rw [h2]; ring⟩
    · rw [atoiDigits, if_neg hc]
      have hmem : c ∉ decimalDigits := fun h => hc ((digit_test_iff c).2 h)
      simp [hmem]

theorem atoiUnsigned_eq_some_iff (neg : Bool) (ds : List Char) (n : Int) :
    atoiUnsigned neg ds = some n ↔
      ds ≠ [] ∧ (∀ c ∈ ds, c ∈ decimalDigits) ∧
        n = (if neg then -(decimalValue ds : Int) else (decimalValue ds : Int)) ∧
        -(2 : Int) ^ 63 ≤ n ∧ n < (2 : Int) ^ 63 := by
  have h63 : (2 : Nat) ^ 63 = 9223372036854775808 := by norm_num
  have i63 : (2 : Int) ^ 63 = 9223372036854775808 := by norm_num
  cases ds with
  | nil => simp [atoiUnsigned]
  | cons d ds' =>
    cases ha : atoiDigits (d :: ds') 0 with
    | none =>
      simp only [atoiUnsigned, ha]
      constructor
      · intro h
        cases h
      · rintro ⟨-, hall, -⟩
        have := (atoiDigits_eq_some_iff (d :: ds') 0 (decimalValue (d :: ds'))).2
          ⟨hall, by simp⟩
        rw [ha] at this
        cases this
    | some m =>
      have hm := (atoiDigits_eq_some_iff (d :: ds') 0 m).1 ha
      have hval : decimalValue (d :: ds') = m := by simpa using hm.2.symm
      simp only [atoiUnsigned, ha, hval, h63, i63]
      cases neg with
      | true =>
        simp only [if_true]
        constructor
        · intro h
          by_cases hr : m ≤ 9223372036854775808
          · rw [if_pos hr] at h
            cases h
            exact ⟨by simp, hm.1, rfl, by omega, by omega⟩
          · rw [if_neg hr] at h
            cases h
        · rintro ⟨-, -, hn, hlo, hhi⟩
          have hr : m ≤ 9223372036854775808 := by omega
          rw [if_pos hr, hn]
      | false =>
        simp only [Bool.false_eq_true, if_false]
        constructor
        · intro h
          by_cases hr : m < 9223372036854775808
          · rw [if_pos hr] at h
            cases h
            exact ⟨by simp, hm.1, rfl, by omega, by omega⟩
          · rw [if_neg hr] at h
            cases h
        · rintro ⟨-, -, hn, hlo, hhi⟩
          have hr : m < 9223372036854775808 := by omega
          rw [if_pos hr, hn]

/-- The embedding of `strconv.Atoi` accepts exactly the decimal notations of
the integers of the `int` range, and returns the integer denoted. -/
theorem Atoi_eq_some_iff (t : String) (n : Int) : Atoi t = some n ↔ DenotesInt t n := by
  unfold Atoi DenotesInt
  cases hd : t.data with
  | nil =>
    constructor
    · intro h
      cases h
    · rintro ⟨ds, h1, -, h, -⟩
      rcases h with ⟨h | h, -⟩ | ⟨h, -⟩
      · exact absurd h.symm h1
      · cases h
      · cases h
  | cons c rest =>
    dsimp only
    by_cases hm : c = '-'
    · subst hm
      rw [if_pos rfl, atoiUnsigned_eq_some_iff]
      constructor
      · rintro ⟨h1, h2, h3, h4⟩
        exact ⟨rest, h1, h2, Or.inr ⟨rfl, by simpa using h3⟩, h4⟩
      · rintro ⟨ds, h1, h2, h, h4⟩
        rcases h with ⟨h | h, -⟩ | ⟨h, hn⟩
        · exact absurd (h2 _ (h ▸ List.mem_cons_self _ _)) sign_not_digit.1
        · simp at h
        · have hds : rest = ds := by simpa using h
          subst hds
          exact ⟨h1, h2, by simpa using hn, h4⟩
    · by_cases hp : c = '+'
      · subst hp
        rw [if_neg hm, if_pos rfl, atoiUnsigned_eq_some_iff]
        constructor
        · rintro ⟨h1, h2, h3, h4⟩
          exact ⟨rest, h1, h2, Or.inl ⟨Or.inr rfl, by simpa using h3⟩, h4⟩
        · rintro ⟨ds, h1, h2, h, h4⟩
          rcases h with ⟨h | h, hn⟩ | ⟨h, -⟩
          · exact absurd (h2 _ (h ▸ List.mem_cons_self _ _)) sign_not_digit.2
          · have hds : rest = ds := by simpa using h
            subst hds
            exact ⟨h1, h2, by simpa using hn, h4⟩
          · simp at h
      · rw [if_neg hm, if_neg hp, atoiUnsigned_eq_some_iff]
        constructor
        · rintro ⟨h1, h2, h3, h4⟩
          exact ⟨c :: rest, h1, h2, Or.inl ⟨Or.inl rfl, by simpa using h3⟩, h4⟩
        · rintro ⟨ds, h1, h2, h, h4⟩
          rcases h with ⟨h | h, hn⟩ | ⟨h, -⟩
          · subst h
            exact ⟨h1, h2, by simpa using hn, h4⟩
          · exact absurd (by simpa using h : c = '+' ∧ rest = ds).1 hp
          · exact absurd (by simpa using h : c = '-' ∧ rest = ds).1 hm

theorem execStatus_mem (res : ExecResult) :
    execStatus res = StatusNoContent ∨ execStatus res = StatusNotFound ∨
      execStatus res = StatusInternalServerError := by
  cases res with
  | err => simp [execStatus]
  | result ra =>
    cases ra with
    | none => simp [execStatus]
    | some rows =>
      by_cases h : rows = 0 <;> simp [execStatus, h]

theorem ne_empty_of_Atoi {t : String} {id : Int} (h : Atoi t = some id) : t ≠ "" := by
  intro ht
  rw [ht, Atoi_empty] at h
  cases h

/-- The guard of `userByIDHandler` (lines 104-113). -/
theorem userByIDHandler_bad_id {σ : Type} (json : Codec) (db : DB σ) (r : Request) (s : σ)
    (h : TrimPrefix r.Path "/users/" = "" ∨ Atoi (TrimPrefix r.Path "/users/") = none) :
    userByIDHandler json db r s = ⟨writeHeader StatusBadRequest, s, []⟩ := by
  unfold userByIDHandler
  by_cases he : TrimPrefix r.Path "/users/" = ""
  · simp [he]
  · rcases h with h | h
    · exact absurd h he
    · simp [he, h]

/-- The `GET` branch of `userByIDHandler` (lines 117-139). -/
theorem userByIDHandler_get {σ : Type} (json : Codec) (db : DB σ) (r : Request) (s : σ)
    (id : Int) (hm : r.Method = MethodGet)
    (hp : Atoi (TrimPrefix r.Path "/users/") = some id) :
    userByIDHandler json db r s =
      match db.selectUser id s with
      | (ScanResult.errNoRows, s') => ⟨writeHeader StatusNotFound, s', [Stmt.selectUser id]⟩
      | (ScanResult.err, s') =>
        ⟨writeHeader StatusInternalServerError, s', [Stmt.selectUser id]⟩
      | (ScanResult.ok user, s') =>
        ⟨{ status := StatusOK, header := [("Content-Type", "application/json")],
           body := Payload.user user }, s', [Stmt.selectUser id]⟩ := by
  unfold userByIDHandler
  simp [ne_empty_of_Atoi hp, hp, hm]

/-- The `PUT` branch of `userByIDHandler` (lines 141-180). -/
theorem userByIDHandler_put {σ : Type} (json : Codec) (db : DB σ) (r : Request) (s : σ)
    (id : Int) (hm : r.Method = MethodPut)
    (hp : Atoi (TrimPrefix r.Path "/users/") = some id) :
    userByIDHandler json db r s =
      match json.updateUser r.Body with
      | none => ⟨writeHeader StatusBadRequest, s, []⟩
      | some req =>
        if req.Name = "" then ⟨writeHeader StatusBadRequest, s, []⟩
        else ⟨writeHeader (execStatus (db.updateUserName req.Name id s).1),
              (db.updateUserName req.Name id s).2, [Stmt.updateUserName req.Name id]⟩ := by
  have h1 : MethodPut ≠ MethodGet := by decide
  unfold userByIDHandler
  simp [ne_empty_of_Atoi hp, hp, hm, h1]

/-- The `DELETE` branch of `userByIDHandler` (lines 182-206). -/
theorem userByIDHandler_delete {σ : Type} (json : Codec) (db : DB σ) (r : Request) (s : σ)
    (id : Int) (hm : r.Method = MethodDelete)
    (hp : Atoi (TrimPrefix r.Path "/users/") = some id) :
    userByIDHandler json db r s =
      ⟨writeHeader (execStatus (db.deleteUser id s).1), (db.deleteUser id s).2,
        [Stmt.deleteUser id]⟩ := by
  have h1 : MethodDelete ≠ MethodGet := by decide
  have h2 : MethodDelete ≠ MethodPut := by decide
  unfold userByIDHandler
  simp [ne_empty_of_Atoi hp, hp, hm, h1, h2]

/-- The `default` branch of `userByIDHandler` (lines 208-210). -/
theorem userByIDHandler_other {σ : Type} (json : Codec) (db : DB σ) (r : Request) (s : σ)
    (id : Int) (hg : r.Method ≠ MethodGet) (hu : r.Method ≠ MethodPut)
    (hd : r.Method ≠ MethodDelete)
    (hp : Atoi (TrimPrefix r.Path "/users/") = some id) :
    userByIDHandler json db r s = ⟨writeHeader StatusMethodNotAllowed, s, []⟩ := by
  unfold userByIDHandler
  simp [ne_empty_of_Atoi hp, hp, hg, hu, hd]

/-! ## Method dispatch -/

/-- C1 (as amended): a method the path does not support is answered 405 with
no storage statement and the storage untouched, for every path and body, by
`createUserHandler`, `createProfileHandler` and `profileByIDHandler`; by
`userByIDHandler` it is answered 405 when the path suffix is non-empty and
accepted by `Atoi`, and 400 otherwise, again with no storage statement. -/
theorem unsupported_method_rejected {σ : Type} (json : Codec) (db : DB σ) (r : Request)
    (s : σ) :
    (r.Method ≠ MethodPost →
      createUserHandler json db r s = ⟨writeHeader StatusMethodNotAllowed, s, []⟩) ∧
    (r.Method ≠ MethodPost →
      createProfileHandler json db r s = ⟨writeHeader StatusMethodNotAllowed, s, []⟩) ∧
    (r.Method ≠ MethodGet →
      profileByIDHandler db r s = ⟨writeHeader StatusMethodNotAllowed, s, []⟩) ∧
    (r.Method ≠ MethodGet → r.Method ≠ MethodPut → r.Method ≠ MethodDelete →
      userByIDHandler json db r s =
        ⟨writeHeader
          (if TrimPrefix r.Path "/users/" = "" ∨ Atoi (TrimPrefix r.Path "/users/") = none
            then StatusBadRequest else StatusMethodNotAllowed), s, []⟩) := by
  refine ⟨?_, ?_, ?_, ?_⟩
  · intro h
    simp [createUserHandler, h]
  · intro h
    simp [createProfileHandler, h]
  · intro h
    simp [profileByIDHandler, h]
  · intro hg hu hd
    by_cases hbad : TrimPrefix r.Path "/users/" = "" ∨
        Atoi (TrimPrefix r.Path "/users/") = none
    · rw [userByIDHandler_bad_id json db r s hbad, if_pos hbad]
    · rw [if_neg hbad]
      cases ha : Atoi (TrimPrefix r.Path "/users/") with
      | none => exact absurd (Or.inr ha) hbad
      | some id => exact userByIDHandler_other json db r s id hg hu hd ha

/-- C1 (witness): `PATCH` on each of the four paths, with identifier `1`
on the two by-identifier paths. -/
theorem unsupported_method_rejected_witness :
    createUserHandler sampleCodec memDB ⟨"PATCH", "/users", ""⟩ sampleStore =
      ⟨writeHeader StatusMethodNotAllowed, sampleStore, []⟩ ∧
    createProfileHandler sampleCodec memDB ⟨"PATCH", "/profiles", ""⟩ sampleStore =
      ⟨writeHeader StatusMethodNotAllowed, sampleStore, []⟩ ∧
    profileByIDHandler memDB ⟨"PATCH", "/profiles/1", ""⟩ sampleStore =
      ⟨writeHeader StatusMethodNotAllowed, sampleStore, []⟩ ∧
    userByIDHandler sampleCodec memDB ⟨"PATCH", "/users/1", ""⟩ sampleStore =
      ⟨writeHeader StatusMethodNotAllowed, sampleStore, []⟩ :=
  ⟨(unsupported_method_rejected sampleCodec memDB ⟨"PATCH", "/users", ""⟩ sampleStore).1
      (by decide),
   (unsupported_method_rejected sampleCodec memDB ⟨"PATCH", "/profiles", ""⟩ sampleStore).2.1
      (by decide),
   (unsupported_method_rejected sampleCodec memDB ⟨"PATCH", "/profiles/1", ""⟩
      sampleStore).2.2.1 (by decide),
   (unsupported_method_rejected sampleCodec memDB ⟨"PATCH", "/users/1", ""⟩
      sampleStore).2.2.2 (by decide) (by decide) (by decide)⟩

/-- C1 (counterexample): `PATCH /users/abc` is not a supported method of the
path, yet the answer is 400, not 405. -/
theorem patch_bad_suffix_not_405 :
    "PATCH" ≠ MethodGet ∧ "PATCH" ≠ MethodPut ∧ "PATCH" ≠ MethodDelete ∧
    (userByIDHandler sampleCodec memDB ⟨"PATCH", "/users/abc", ""⟩ Store.init).resp.status
      = StatusBadRequest ∧
    (userByIDHandler sampleCodec memDB ⟨"PATCH", "/users/abc", ""⟩ Store.init).resp.status
      ≠ StatusMethodNotAllowed := by
  decide

/-! ## Request validation -/

/-- C3: `PUT` under `/users/` with a body that decodes to an empty name is
answered 400, for every path identifier, every storage state and every
database; the storage state is the same afterwards and no statement (in
particular no `UPDATE`) is issued. -/
theorem put_empty_name_rejected {σ : Type} (json : Codec) (db : DB σ) (r : Request) (s : σ)
    (hm : r.Method = MethodPut) (hb : json.updateUser r.Body = some { Name := "" }) :
    userByIDHandler json db r s = ⟨writeHeader StatusBadRequest, s, []⟩ := by
  cases hp : Atoi (TrimPrefix r.Path "/users/") with
  | none => exact userByIDHandler_bad_id json db r s (Or.inr hp)
  | some id =>
    rw [userByIDHandler_put json db r s id hm hp, hb]
    simp

/-- C3 (witness): `PUT /users/1` with body `{"name":""}` on the sample
storage. -/
theorem put_empty_name_rejected_witness :
    userByIDHandler sampleCodec memDB ⟨"PUT", "/users/1", "\x7b\"name\":\"\"\x7d"⟩ sampleStore
      = ⟨writeHeader StatusBadRequest, sampleStore, []⟩ :=
  put_empty_name_rejected sampleCodec memDB ⟨"PUT", "/users/1", "\x7b\"name\":\"\"\x7d"⟩
    sampleStore (by decide) (by decide)

/-- C5 (as amended): on each write endpoint a body on which `Decode` reports
an error is answered 400, the storage state is the same afterwards and no
statement (no `INSERT`, no `UPDATE`) is issued.  The form of the body is
checked by nothing else: a body that `Decode` accepts is never answered 400
by `POST /users`, whose `INSERT` is issued with the decoded values; the same
holds for `PUT` under `/users/` once the path suffix parses and the decoded
name is non-empty, and for `POST /profiles` once the decoded user identity is
not 0. -/
theorem undecodable_body_rejected {σ : Type} (json : Codec) (db : DB σ) (r : Request)
    (s : σ) :
    (r.Method = MethodPost → json.createUser r.Body = none →
      createUserHandler json db r s = ⟨writeHeader StatusBadRequest, s, []⟩) ∧
    (r.Method = MethodPut → json.updateUser r.Body = none →
      userByIDHandler json db r s = ⟨writeHeader StatusBadRequest, s, []⟩) ∧
    (r.Method = MethodPost → json.createProfile r.Body = none →
      createProfileHandler json db r s = ⟨writeHeader StatusBadRequest, s, []⟩) ∧
    (r.Method = MethodPost →
      ∀ req : CreateUserRequest, json.createUser r.Body = some req →
        (createUserHandler json db r s).stmts = [Stmt.insertUser req.Email req.Name] ∧
        (createUserHandler json db r s).resp.status ≠ StatusBadRequest) ∧
    (r.Method = MethodPut →
      ∀ (req : UpdateUserRequest) (id : Int), json.updateUser r.Body = some req →
        req.Name ≠ "" → Atoi (TrimPrefix r.Path "/users/") = some id →
        (userByIDHandler json db r s).stmts = [Stmt.updateUserName req.Name id] ∧
        (userByIDHandler json db r s).resp.status ≠ StatusBadRequest) ∧
    (r.Method = MethodPost →
      ∀ req : CreateProfileRequest, json.createProfile r.Body = some req →
        req.UserID ≠ 0 →
        (createProfileHandler json db r s).stmts
          = [Stmt.insertProfile req.UserID req.Bio req.Age] ∧
        (createProfileHandler json db r s).resp.status ≠ StatusBadRequest) := by
  refine ⟨?_, ?_, ?_, ?_, ?_, ?_⟩
  · intro hm hb
    simp [createUserHandler, hm, hb]
  · intro hm hb
    cases hp : Atoi (TrimPrefix r.Path "/users/") with
    | none => exact userByIDHandler_bad_id json db r s (Or.inr hp)
    | some id => rw [userByIDHandler_put json db r s id hm hp, hb]
  · intro hm hb
    simp [createProfileHandler, hm, hb]
  · intro hm req hb
    unfold createUserHandler
    simp only [hm, hb]
    rcases hq : db.insertUser req.Email req.Name s with ⟨res, s'⟩
    cases res <;> simp [writeHeader]
  · intro hm req id hb hne hp
    rw [userByIDHandler_put json db r s id hm hp, hb]
    dsimp only
    rw [if_neg hne]
    refine ⟨rfl, ?_⟩
    rcases execStatus_mem (db.updateUserName req.Name id s).1 with h | h | h <;>
      simp [writeHeader, h]
  · intro hm req hb hz
    unfold createProfileHandler
    simp only [hm, hb, hz]
    rcases hq : db.insertProfile req.UserID req.Bio req.Age s with ⟨res, s'⟩
    cases res <;> simp [writeHeader]

/-- C5 (witness): the body `{"name":` is rejected on the three write
endpoints; the bodies the sample decoder accepts reach the statement. -/
theorem undecodable_body_rejected_witness :
    createUserHandler sampleCodec memDB ⟨"POST", "/users", "\x7b\"name\":"⟩ sampleStore
      = ⟨writeHeader StatusBadRequest, sampleStore, []⟩ ∧
    userByIDHandler sampleCodec memDB ⟨"PUT", "/users/1", "\x7b\"name\":"⟩ sampleStore
      = ⟨writeHeader StatusBadRequest, sampleStore, []⟩ ∧
    createProfileHandler sampleCodec memDB ⟨"POST", "/profiles", "\x7b\"name\":"⟩ sampleStore
      = ⟨writeHeader StatusBadRequest, sampleStore, []⟩ ∧
    ((createUserHandler sampleCodec memDB
        ⟨"POST", "/users", "\x7b\"email\":\"ann@example.org\",\"name\":\"Ann\"\x7d"⟩
        sampleStore).stmts = [Stmt.insertUser "ann@example.org" "Ann"] ∧
      (createUserHandler sampleCodec memDB
        ⟨"POST", "/users", "\x7b\"email\":\"ann@example.org\",\"name\":\"Ann\"\x7d"⟩
        sampleStore).resp.status ≠ StatusBadRequest) ∧
    ((userByIDHandler sampleCodec memDB ⟨"PUT", "/users/1", "\x7b\"name\":\"Bob\"\x7d"⟩
        sampleStore).stmts = [Stmt.updateUserName "Bob" 1] ∧
      (userByIDHandler sampleCodec memDB ⟨"PUT", "/users/1", "\x7b\"name\":\"Bob\"\x7d"⟩
        sampleStore).resp.status ≠ StatusBadRequest) ∧
    ((createProfileHandler sampleCodec memDB
        ⟨"POST", "/profiles", "\x7b\"user_id\":7,\"bio\":\"hi\",\"age\":30\x7d"⟩
        sampleStore).stmts = [Stmt.insertProfile 7 "hi" 30] ∧
      (createProfileHandler sampleCodec memDB
        ⟨"POST", "/profiles", "\x7b\"user_id\":7,\"bio\":\"hi\",\"age\":30\x7d"⟩
        sampleStore).resp.status ≠ StatusBadRequest) :=
  ⟨(undecodable_body_rejected sampleCodec memDB ⟨"POST", "/users", "\x7b\"name\":"⟩
      sampleStore).1 (by decide) (by decide),
   (undecodable_body_rejected sampleCodec memDB ⟨"PUT", "/users/1", "\x7b\"name\":"⟩
      sampleStore).2.1 (by decide) (by decide),
   (undecodable_body_rejected sampleCodec memDB ⟨"POST", "/profiles", "\x7b\"name\":"⟩
      sampleStore).2.2.1 (by decide) (by decide),
   (undecodable_body_rejected sampleCodec memDB
      ⟨"POST", "/users", "\x7b\"email\":\"ann@example.org\",\"name\":\"Ann\"\x7d"⟩
      sampleStore).2.2.2.1 (by decide) { Email := "ann@example.org", Name := "Ann" }
      (by decide),
   (undecodable_body_rejected sampleCodec memDB
      ⟨"PUT", "/users/1", "\x7b\"name\":\"Bob\"\x7d"⟩ sampleStore).2.2.2.2.1 (by decide)
      { Name := "Bob" } 1 (by decide) (by decide) (by decide),
   (undecodable_body_rejected sampleCodec memDB
      ⟨"POST", "/profiles", "\x7b\"user_id\":7,\"bio\":\"hi\",\"age\":30\x7d"⟩
      sampleStore).2.2.2.2.2 (by decide) { UserID := 7, Bio := "hi", Age := 30 }
      (by decide) (by decide)⟩

/-- C5 (counterexample): neither `null` nor `{"name":"Bob"}x` is a well-formed
JSON object of the expected shape, yet `Decode` accepts both.  `POST /users`
with body `null` is answered 201 after an `INSERT` of an empty email and
name, and `PUT /users/1` with body `{"name":"Bob"}x` is answered 204 after
the `UPDATE`; the storage is not what it was. -/
theorem lenient_body_reaches_storage :
    (createUserHandler lenientCodec memDB ⟨"POST", "/users", "null"⟩ sampleStore).resp.status
      = StatusCreated ∧
    (createUserHandler lenientCodec memDB ⟨"POST", "/users", "null"⟩ sampleStore).stmts
      = [Stmt.insertUser "" ""] ∧
    (createUserHandler lenientCodec memDB ⟨"POST", "/users", "null"⟩ sampleStore).state
      ≠ sampleStore ∧
    (userByIDHandler lenientCodec memDB ⟨"PUT", "/users/1", "\x7b\"name\":\"Bob\"\x7dx"⟩
      sampleStore).resp.status = StatusNoContent ∧
    (userByIDHandler lenientCodec memDB ⟨"PUT", "/users/1", "\x7b\"name\":\"Bob\"\x7dx"⟩
      sampleStore).stmts = [Stmt.updateUserName "Bob" 1] ∧
    (userByIDHandler lenientCodec memDB ⟨"PUT", "/users/1", "\x7b\"name\":\"Bob\"\x7dx"⟩
      sampleStore).state ≠ sampleStore := by
  decide

/-- C7: for `POST /profiles` with a body that decodes to `req`, the answer is
400 exactly when `req.UserID` is 0, whatever `Bio` and `Age` are, and then
nothing is inserted; for every other `UserID` the `INSERT` is issued with the
decoded values, against every database and storage state (no lookup of the
user precedes it), and when it returns identity `n` the answer is 201 with
body `{"id": n}`. -/
theorem createProfile_only_checks_zero_user {σ : Type} (json : Codec) (db : DB σ)
    (r : Request) (s : σ) (req : CreateProfileRequest)
    (hm : r.Method = MethodPost) (hb : json.createProfile r.Body = some req) :
    ((createProfileHandler json db r s).resp.status = StatusBadRequest ↔ req.UserID = 0) ∧
    (req.UserID = 0 →
      createProfileHandler json db r s = ⟨writeHeader StatusBadRequest, s, []⟩) ∧
    (req.UserID ≠ 0 →
      (createProfileHandler json db r s).stmts
        = [Stmt.insertProfile req.UserID req.Bio req.Age] ∧
      (createProfileHandler json db r s).state
        = (db.insertProfile req.UserID req.Bio req.Age s).2 ∧
      ∀ n : Int, (db.insertProfile req.UserID req.Bio req.Age s).1 = ScanResult.ok n →
        (createProfileHandler json db r s).resp
          = { status := StatusCreated, header := [], body := Payload.id n }) := by
  by_cases hz : req.UserID = 0
  · have h : createProfileHandler json db r s = ⟨writeHeader StatusBadRequest, s, []⟩ := by
      simp [createProfileHandler, hm, hb, hz]
    refine ⟨?_, fun _ => h, fun hne => absurd hz hne⟩
    rw [h]
    simp [writeHeader, hz]
  · refine ⟨?_, fun h => absurd h hz, fun _ => ?_⟩
    · unfold createProfileHandler
      simp only [hm, hb, hz]
      rcases hq : db.insertProfile req.UserID req.Bio req.Age s with ⟨res, s'⟩
      cases res <;> simp [writeHeader]
    · unfold createProfileHandler
      simp only [hm, hb, hz]
      rcases hq : db.insertProfile req.UserID req.Bio req.Age s with ⟨res, s'⟩
      cases res <;> simp

/-- C7 (witness): a profile for user 7 on the empty storage (no such user)
is inserted and answered 201 with identity 1. -/
theorem createProfile_only_checks_zero_user_witness :
    (createProfileHandler sampleCodec memDB
        ⟨"POST", "/profiles", "\x7b\"user_id\":7,\"bio\":\"hi\",\"age\":30\x7d"⟩
        Store.init).stmts = [Stmt.insertProfile 7 "hi" 30] ∧
    (createProfileHandler sampleCodec memDB
        ⟨"POST", "/profiles", "\x7b\"user_id\":7,\"bio\":\"hi\",\"age\":30\x7d"⟩
        Store.init).resp = { status := StatusCreated, header := [], body := Payload.id 1 } :=
  have h := (createProfile_only_checks_zero_user sampleCodec memDB
    ⟨"POST", "/profiles", "\x7b\"user_id\":7,\"bio\":\"hi\",\"age\":30\x7d"⟩ Store.init
    { UserID := 7, Bio := "hi", Age := 30 } (by decide) (by decide)).2.2 (by decide)
  ⟨h.1, h.2.2 1 (by decide)⟩

/-! ## The path identifier -/

/-- C6 (as amended): in `userByIDHandler` the path suffix after `/users/` is
read as a signed integer.  A suffix that is empty or is not the decimal
notation of an integer of the `int` range (digits, optionally preceded by `+`
or `-`) is answered 400 with the storage untouched and no statement issued,
whatever the method; and every statement the handler issues carries the
integer the suffix denotes, which may be negative. -/
theorem userByID_id_is_signed_decimal {σ : Type} (json : Codec) (db : DB σ) (r : Request)
    (s : σ) :
    ((TrimPrefix r.Path "/users/" = "" ∨
        ¬ ∃ n : Int, DenotesInt (TrimPrefix r.Path "/users/") n) →
      userByIDHandler json db r s = ⟨writeHeader StatusBadRequest, s, []⟩) ∧
    (∀ st ∈ (userByIDHandler json db r s).stmts,
      ∃ id : Int, DenotesInt (TrimPrefix r.Path "/users/") id ∧
        (st = Stmt.selectUser id ∨ (∃ name : String, st = Stmt.updateUserName name id) ∨
          st = Stmt.deleteUser id)) := by
  constructor
  · intro h
    apply userByIDHandler_bad_id
    rcases h with h | h
    · exact Or.inl h
    · right
      cases ha : Atoi (TrimPrefix r.Path "/users/") with
      | none => rfl
      | some n => exact absurd ⟨n, (Atoi_eq_some_iff _ n).1 ha⟩ h
  · intro st hst
    cases ha : Atoi (TrimPrefix r.Path "/users/") with
    | none =>
      rw [userByIDHandler_bad_id json db r s (Or.inr ha)] at hst
      cases hst
    | some id =>
      refine ⟨id, (Atoi_eq_some_iff _ id).1 ha, ?_⟩
      by_cases hg : r.Method = MethodGet
      · rw [userByIDHandler_get json db r s id hg ha] at hst
        rcases hq : db.selectUser id s with ⟨res, s'⟩
        rw [hq] at hst
        cases res <;> simp at hst <;> exact Or.inl hst
      · by_cases hu : r.Method = MethodPut
        · rw [userByIDHandler_put json db r s id hu ha] at hst
          cases hb : json.updateUser r.Body with
          | none =>
            rw [hb] at hst
            cases hst
          | some req =>
            rw [hb] at hst
            by_cases hn : req.Name = ""
            · simp [hn] at hst
            · simp [hn] at hst
              exact Or.inr (Or.inl ⟨req.Name, hst⟩)
        · by_cases hd : r.Method = MethodDelete
          · rw [userByIDHandler_delete json db r s id hd ha] at hst
            simp at hst
            exact Or.inr (Or.inr hst)
          · rw [userByIDHandler_other json db r s id hg hu hd ha] at hst
            cases hst

/-- C6 (witness): the empty suffix is answered 400; the statement issued for
`GET` with suffix `-1` carries the integer that `-1` denotes. -/
theorem userByID_id_is_signed_decimal_witness :
    userByIDHandler sampleCodec memDB ⟨"GET", "/users/", ""⟩ sampleStore
      = ⟨writeHeader StatusBadRequest, sampleStore, []⟩ ∧
    ∃ id : Int, DenotesInt (TrimPrefix "/users/-1" "/users/") id ∧
      (Stmt.selectUser (-1) = Stmt.selectUser id ∨
        (∃ name : String, Stmt.selectUser (-1) = Stmt.updateUserName name id) ∨
        Stmt.selectUser (-1) = Stmt.deleteUser id) :=
  ⟨(userByID_id_is_signed_decimal sampleCodec memDB ⟨"GET", "/users/", ""⟩ sampleStore).1
      (Or.inl (by decide)),
   (userByID_id_is_signed_decimal sampleCodec memDB ⟨"GET", "/users/-1", ""⟩ sampleStore).2
      (Stmt.selectUser (-1)) (by decide)⟩

/-- C6 (counterexample): the suffix `-1` is not the notation of a non-negative
integer, yet `GET` with that suffix is not answered 400: the `SELECT` is issued with
identifier -1 and the answer is 404. -/
theorem negative_id_reaches_storage :
    (userByIDHandler sampleCodec memDB ⟨"GET", "/users/-1", ""⟩ Store.init).stmts
      = [Stmt.selectUser (-1)] ∧
    (userByIDHandler sampleCodec memDB ⟨"GET", "/users/-1", ""⟩ Store.init).resp.status
      = StatusNotFound ∧
    (userByIDHandler sampleCodec memDB ⟨"GET", "/users/-1", ""⟩ Store.init).resp.status
      ≠ StatusBadRequest := by
  decide

/-! ## Status codes -/

/-- C9 (as amended): for each supported method the status code lies in the
set the interface table lists for its row, with 400 added to the row of
`DELETE /users/{id}`: `POST /users` answers 201, 400 or 500; `GET`, `PUT`
and `DELETE` under `/users/` answer 200 (resp. 204), 400, 404 or 500;
`POST /profiles` answers 201, 400 or 500; `GET` under `/profiles/` answers
200, 400, 404 or 500. -/
theorem status_in_interface_table {σ : Type} (json : Codec) (db : DB σ) (r : Request)
    (s : σ) :
    (r.Method = MethodPost →
      (createUserHandler json db r s).resp.status ∈ [201, 400, 500]) ∧
    (r.Method = MethodGet →
      (userByIDHandler json db r s).resp.status ∈ [200, 400, 404, 500]) ∧
    (r.Method = MethodPut →
      (userByIDHandler json db r s).resp.status ∈ [204, 400, 404, 500]) ∧
    (r.Method = MethodDelete →
      (userByIDHandler json db r s).resp.status ∈ [204, 400, 404, 500]) ∧
    (r.Method = MethodPost →
      (createProfileHandler json db r s).resp.status ∈ [201, 400, 500]) ∧
    (r.Method = MethodGet →
      (profileByIDHandler db r s).resp.status ∈ [200, 400, 404, 500]) := by
  refine ⟨?_, ?_, ?_, ?_, ?_, ?_⟩
  · intro hm
    unfold createUserHandler
    cases hb : json.createUser r.Body with
    | none => simp [hm, writeHeader]
    | some req =>
      rcases hq : db.insertUser req.Email req.Name s with ⟨res, s'⟩
      cases res <;> simp [hm, hq, writeHeader]
  · intro hm
    cases ha : Atoi (TrimPrefix r.Path "/users/") with
    | none => simp [userByIDHandler_bad_id json db r s (Or.inr ha), writeHeader]
    | some id =>
      rw [userByIDHandler_get json db r s id hm ha]
      rcases hq : db.selectUser id s with ⟨res, s'⟩
      cases res <;> simp [writeHeader]
  · intro hm
    cases ha : Atoi (TrimPrefix r.Path "/users/") with
    | none => simp [userByIDHandler_bad_id json db r s (Or.inr ha), writeHeader]
    | some id =>
      rw [userByIDHandler_put json db r s id hm ha]
      cases hb : json.updateUser r.Body with
      | none => simp [writeHeader]
      | some req =>
        by_cases hn : req.Name = ""
        · simp [hn, writeHeader]
        · rcases execStatus_mem (db.updateUserName req.Name id s).1 with h | h | h <;>
            simp [hn, writeHeader, h]
  · intro hm
    cases ha : Atoi (TrimPrefix r.Path "/users/") with
    | none => simp [userByIDHandler_bad_id json db r s (Or.inr ha), writeHeader]
    | some id =>
      rw [userByIDHandler_delete json db r s id hm ha]
      rcases execStatus_mem (db.deleteUser id s).1 with h | h | h <;>
        simp [writeHeader, h]
  · intro hm
    unfold createProfileHandler
    cases hb : json.createProfile r.Body with
    | none => simp [hm, writeHeader]
    | some req =>
      by_cases hz : req.UserID = 0
      · simp [hm, hz, writeHeader]
      · rcases hq : db.insertProfile req.UserID req.Bio req.Age s with ⟨res, s'⟩
        cases res <;> simp [hm, hz, hq, writeHeader]
  · intro hm
    unfold profileByIDHandler
    by_cases he : TrimPrefix r.Path "/profiles/" = ""
    · simp [hm, he, writeHeader]
    · cases ha : Atoi (TrimPrefix r.Path "/profiles/") with
      | none => simp [hm, he, ha, writeHeader]
      | some id =>
        rcases hq : db.selectProfile id s with ⟨res, s'⟩
        cases res <;> simp [hm, he, ha, hq, writeHeader]

/-- C9 (witness): one request per row of the table on the sample storage. -/
theorem status_in_interface_table_witness :
    (createUserHandler sampleCodec memDB ⟨"POST", "/users", ""⟩ sampleStore).resp.status
      ∈ [201, 400, 500] ∧
    (userByIDHandler sampleCodec memDB ⟨"GET", "/users/1", ""⟩ sampleStore).resp.status
      ∈ [200, 400, 404, 500] ∧
    (userByIDHandler sampleCodec memDB ⟨"PUT", "/users/1", ""⟩ sampleStore).resp.status
      ∈ [204, 400, 404, 500] ∧
    (userByIDHandler sampleCodec memDB ⟨"DELETE", "/users/1", ""⟩ sampleStore).resp.status
      ∈ [204, 400, 404, 500] ∧
    (createProfileHandler sampleCodec memDB ⟨"POST", "/profiles", ""⟩ sampleStore).resp.status
      ∈ [201, 400, 500] ∧
    (profileByIDHandler memDB ⟨"GET", "/profiles/1", ""⟩ sampleStore).resp.status
      ∈ [200, 400, 404, 500] :=
  ⟨(status_in_interface_table sampleCodec memDB ⟨"POST", "/users", ""⟩ sampleStore).1
      (by decide),
   (status_in_interface_table sampleCodec memDB ⟨"GET", "/users/1", ""⟩ sampleStore).2.1
      (by decide),
   (status_in_interface_table sampleCodec memDB ⟨"PUT", "/users/1", ""⟩ sampleStore).2.2.1
      (by decide),
   (status_in_interface_table sampleCodec memDB ⟨"DELETE", "/users/1", ""⟩
      sampleStore).2.2.2.1 (by decide),
   (status_in_interface_table sampleCodec memDB ⟨"POST", "/profiles", ""⟩
      sampleStore).2.2.2.2.1 (by decide),
   (status_in_interface_table sampleCodec memDB ⟨"GET", "/profiles/1", ""⟩
      sampleStore).2.2.2.2.2 (by decide)⟩

/-- C9 (counterexample): `DELETE /users/abc` is answered 400, which is none of
204, 404 and 500. -/
theorem delete_bad_suffix_is_400 :
    (userByIDHandler sampleCodec memDB ⟨"DELETE", "/users/abc", ""⟩ sampleStore).resp.status
      = StatusBadRequest ∧
    (userByIDHandler sampleCodec memDB ⟨"DELETE", "/users/abc", ""⟩ sampleStore).resp.status
      ∉ [204, 404, 500] := by
  decide

/-! ## Stored rows -/

theorem countP_id_eq_zero {users : List User} {n : Int} (h : ∀ u ∈ users, u.ID ≠ n) :
    users.countP (fun u => decide (u.ID = n)) = 0 := by
  rw [List.countP_eq_zero]
  intro u hu
  simpa using h u hu

theorem countP_id_pos {users : List User} {n : Int} (h : ∃ u ∈ users, u.ID = n) :
    0 < users.countP (fun u => decide (u.ID = n)) := by
  rw [List.countP_pos_iff]
  rcases h with ⟨u, hu, hn⟩
  exact ⟨u, hu, by simpa using hn⟩

theorem map_rename_of_absent {users : List User} {n : Int} (name : String)
    (h : ∀ u ∈ users, u.ID ≠ n) :
    users.map (fun u => if u.ID = n then { u with Name := name } else u) = users := by
  induction users with
  | nil => rfl
  | cons u us ih =>
    have hu : u.ID ≠ n := h u (List.mem_cons_self _ _)
    have hus : ∀ v ∈ us, v.ID ≠ n := fun v hv => h v (List.mem_cons_of_mem _ hv)
    simp [hu, ih hus]

theorem filter_of_absent {users : List User} {n : Int} (h : ∀ u ∈ users, u.ID ≠ n) :
    users.filter (fun u => decide (u.ID ≠ n)) = users := by
  rw [List.filter_eq_self]
  intro u hu
  simpa using h u hu

theorem find_id_eq_none {users : List User} {n : Int} (h : ∀ u ∈ users, u.ID ≠ n) :
    users.find? (fun u => decide (u.ID = n)) = none := by
  rw [List.find?_eq_none]
  intro u hu
  simpa using h u hu

/-- C2: on the in-memory storage, when the `INSERT` of `POST /users`
succeeds with identity `n`, then `n` is positive and was not the identity of
any stored user, the answer is 201 with body `{"id": n}`, and every following
`GET` whose path suffix denotes `n` is answered 200 with a `User` whose
identity is `n` and whose email and name are the ones sent. -/
theorem create_then_read (json : Codec) (s : Store) (r : Request) (email name : String)
    (n : Int) (hm : r.Method = MethodPost)
    (hb : json.createUser r.Body = some { Email := email, Name := name })
    (hins : (memDB.insertUser email name s).1 = ScanResult.ok n) :
    0 < n ∧ (∀ u ∈ s.users, u.ID ≠ n) ∧
    (createUserHandler json memDB r s).resp
      = { status := StatusCreated, header := [], body := Payload.id n } ∧
    (createUserHandler json memDB r s).stmts = [Stmt.insertUser email name] ∧
    ∀ r2 : Request, r2.Method = MethodGet →
      Atoi (TrimPrefix r2.Path "/users/") = some n →
      ∃ u : User, u.ID = n ∧ u.Email = email ∧ u.Name = name ∧
        (userByIDHandler json memDB r2 (createUserHandler json memDB r s).state).resp
          = { status := StatusOK, header := [("Content-Type", "application/json")],
              body := Payload.user u } := by
  have hdb : memDB.insertUser email name s = Store.insertUser email name s := rfl
  rw [hdb] at hins
  unfold Store.insertUser at hins
  by_cases hany : s.users.any (fun u => decide (u.ID = ((s.usersSeq + 1 : Nat) : Int))) = true
  · simp only [hany, if_true] at hins
    cases hins
  · simp only [hany] at hins
    have hn : ((s.usersSeq + 1 : Nat) : Int) = n := by simpa using hins
    have hfresh : ∀ u ∈ s.users, u.ID ≠ n := by
      intro u hu he
      apply hany
      rw [List.any_eq_true]
      exact ⟨u, hu, by simpa [hn] using he⟩
    have hout : createUserHandler json memDB r s =
        ⟨{ status := StatusCreated, header := [], body := Payload.id n },
         { s with users := s.users ++ [{ ID := n, Email := email, Name := name,
                                         CreatedAt := s.clock }],
                  usersSeq := s.usersSeq + 1 },
         [Stmt.insertUser email name]⟩ := by
      have hnex : ¬ ∃ x ∈ s.users, x.ID = n := fun ⟨x, hx, he⟩ => hfresh x hx he
      unfold createUserHandler
      simp only [hm, hb, hdb]
      unfold Store.insertUser
      simp [hn, hnex]
    refine ⟨by omega, hfresh, by rw [hout], by rw [hout], ?_⟩
    intro r2 hm2 hp2
    refine ⟨{ ID := n, Email := email, Name := name, CreatedAt := s.clock }, rfl, rfl, rfl, ?_⟩
    rw [userByIDHandler_get json memDB r2 _ n hm2 hp2, hout]
    have hsel : memDB.selectUser n
        { s with users := s.users ++ [{ ID := n, Email := email, Name := name,
                                        CreatedAt := s.clock }],
                 usersSeq := s.usersSeq + 1 } =
        (ScanResult.ok { ID := n, Email := email, Name := name, CreatedAt := s.clock },
         { s with users := s.users ++ [{ ID := n, Email := email, Name := name,
                                         CreatedAt := s.clock }],
                  usersSeq := s.usersSeq + 1 }) := by
      show Store.selectUser n _ = _
      unfold Store.selectUser
      simp [List.find?_append, find_id_eq_none hfresh]
    rw [hsel]

/-- C2 (witness): `POST /users` for Ann on the sample storage returns
identity 2, and `GET /users/2` reads her back. -/
theorem create_then_read_witness :
    (createUserHandler sampleCodec memDB
        ⟨"POST", "/users", "\x7b\"email\":\"ann@example.org\",\"name\":\"Ann\"\x7d"⟩
        sampleStore).resp = { status := StatusCreated, header := [], body := Payload.id 2 } ∧
    ∃ u : User, u.ID = 2 ∧ u.Email = "ann@example.org" ∧ u.Name = "Ann" ∧
      (userByIDHandler sampleCodec memDB ⟨"GET", "/users/2", ""⟩
        (createUserHandler sampleCodec memDB
          ⟨"POST", "/users", "\x7b\"email\":\"ann@example.org\",\"name\":\"Ann\"\x7d"⟩
          sampleStore).state).resp
        = { status := StatusOK, header := [("Content-Type", "application/json")],
            body := Payload.user u } :=
  have h := create_then_read sampleCodec sampleStore
    ⟨"POST", "/users", "\x7b\"email\":\"ann@example.org\",\"name\":\"Ann\"\x7d"⟩
    "ann@example.org" "Ann" 2 (by decide) (by decide) (by decide)
  ⟨h.2.2.1, h.2.2.2.2 ⟨"GET", "/users/2", ""⟩ (by decide) (by decide)⟩

/-- C4: on the in-memory storage, when a user with identity `n` is stored,
`DELETE` with a path suffix denoting `n` is answered 204 and leaves no user
row with identity `n`, and a `DELETE` for `n` right after it is answered
404. -/
theorem delete_twice (json : Codec) (s : Store) (n : Int) (r1 r2 : Request)
    (hm1 : r1.Method = MethodDelete) (hp1 : Atoi (TrimPrefix r1.Path "/users/") = some n)
    (hm2 : r2.Method = MethodDelete) (hp2 : Atoi (TrimPrefix r2.Path "/users/") = some n)
    (hex : ∃ u ∈ s.users, u.ID = n) :
    (userByIDHandler json memDB r1 s).resp = writeHeader StatusNoContent ∧
    (∀ u ∈ (userByIDHandler json memDB r1 s).state.users, u.ID ≠ n) ∧
    (userByIDHandler json memDB r2 (userByIDHandler json memDB r1 s).state).resp
      = writeHeader StatusNotFound := by
  have hgone : ∀ u ∈ (Store.deleteUser n s).2.users, u.ID ≠ n := by
    intro u hu
    simp only [Store.deleteUser, List.mem_filter] at hu
    simpa using hu.2
  have hpos := countP_id_pos hex
  rw [userByIDHandler_delete json memDB r1 s n hm1 hp1]
  refine ⟨?_, hgone, ?_⟩
  · show writeHeader (execStatus (Store.deleteUser n s).1) = _
    have hne : ((s.users.countP (fun u => decide (u.ID = n)) : Nat) : Int) ≠ 0 := by omega
    simp [Store.deleteUser, execStatus, hne]
  · rw [userByIDHandler_delete json memDB r2 _ n hm2 hp2]
    show writeHeader (execStatus (Store.deleteUser n (Store.deleteUser n s).2).1) = _
    have hz := countP_id_eq_zero hgone
    simp only [Store.deleteUser] at hz
    simp [Store.deleteUser, execStatus, hz]

/-- C4 (witness): deleting user 1 of the sample storage twice. -/
theorem delete_twice_witness :
    (userByIDHandler sampleCodec memDB ⟨"DELETE", "/users/1", ""⟩ sampleStore).resp
      = writeHeader StatusNoContent ∧
    (∀ u ∈ (userByIDHandler sampleCodec memDB ⟨"DELETE", "/users/1", ""⟩
        sampleStore).state.users, u.ID ≠ 1) ∧
    (userByIDHandler sampleCodec memDB ⟨"DELETE", "/users/1", ""⟩
      (userByIDHandler sampleCodec memDB ⟨"DELETE", "/users/1", ""⟩ sampleStore).state).resp
      = writeHeader StatusNotFound :=
  delete_twice sampleCodec sampleStore 1 ⟨"DELETE", "/users/1", ""⟩
    ⟨"DELETE", "/users/1", ""⟩ (by decide) (by decide) (by decide) (by decide)
    ⟨{ ID := 1, Email := "ann@example.org", Name := "Ann", CreatedAt := 5 }, by decide, rfl⟩

/-- C8: on the in-memory storage, when no stored user has identity `n`, a
request whose path suffix denotes `n` is answered 404 and leaves the storage
as it was, be it `GET`, `PUT` with a body decoding to a non-empty name, or
`DELETE`. -/
theorem absent_user_not_found (json : Codec) (s : Store) (n : Int) (r : Request)
    (hp : Atoi (TrimPrefix r.Path "/users/") = some n)
    (habs : ∀ u ∈ s.users, u.ID ≠ n) :
    (r.Method = MethodGet →
      (userByIDHandler json memDB r s).resp = writeHeader StatusNotFound ∧
      (userByIDHandler json memDB r s).state = s) ∧
    (r.Method = MethodPut →
      ∀ req : UpdateUserRequest, json.updateUser r.Body = some req → req.Name ≠ "" →
        (userByIDHandler json memDB r s).resp = writeHeader StatusNotFound ∧
        (userByIDHandler json memDB r s).state = s) ∧
    (r.Method = MethodDelete →
      (userByIDHandler json memDB r s).resp = writeHeader StatusNotFound ∧
      (userByIDHandler json memDB r s).state = s) := by
  have hz := countP_id_eq_zero habs
  refine ⟨?_, ?_, ?_⟩
  · intro hm
    rw [userByIDHandler_get json memDB r s n hm hp]
    have hsel : memDB.selectUser n s = (ScanResult.errNoRows, s) := by
      show Store.selectUser n s = _
      simp [Store.selectUser, find_id_eq_none habs]
    rw [hsel]
    exact ⟨rfl, rfl⟩
  · intro hm req hb hne
    rw [userByIDHandler_put json memDB r s n hm hp, hb]
    dsimp only
    rw [if_neg hne]
    have hupd : memDB.updateUserName req.Name n s = (ExecResult.result (some 0), s) := by
      show Store.updateUserName req.Name n s = _
      simp only [Store.updateUserName, hz, map_rename_of_absent req.Name habs]
      rfl
    rw [hupd]
    exact ⟨rfl, rfl⟩
  · intro hm
    rw [userByIDHandler_delete json memDB r s n hm hp]
    have hdel : memDB.deleteUser n s = (ExecResult.result (some 0), s) := by
      show Store.deleteUser n s = _
      simp only [Store.deleteUser, hz, filter_of_absent habs]
      rfl
    rw [hdel]
    exact ⟨rfl, rfl⟩

/-- C8 (witness): user 9 is not in the sample storage. -/
theorem absent_user_not_found_witness :
    ((userByIDHandler sampleCodec memDB ⟨"GET", "/users/9", ""⟩ sampleStore).resp
        = writeHeader StatusNotFound ∧
      (userByIDHandler sampleCodec memDB ⟨"GET", "/users/9", ""⟩ sampleStore).state
        = sampleStore) ∧
    ((userByIDHandler sampleCodec memDB ⟨"PUT", "/users/9", "\x7b\"name\":\"Bob\"\x7d"⟩
        sampleStore).resp = writeHeader StatusNotFound ∧
      (userByIDHandler sampleCodec memDB ⟨"PUT", "/users/9", "\x7b\"name\":\"Bob\"\x7d"⟩
        sampleStore).state = sampleStore) ∧
    ((userByIDHandler sampleCodec memDB ⟨"DELETE", "/users/9", ""⟩ sampleStore).resp
        = writeHeader StatusNotFound ∧
      (userByIDHandler sampleCodec memDB ⟨"DELETE", "/users/9", ""⟩ sampleStore).state
        = sampleStore) :=
  ⟨(absent_user_not_found sampleCodec sampleStore 9 ⟨"GET", "/users/9", ""⟩ (by decide)
      (by decide)).1 (by decide),
   (absent_user_not_found sampleCodec sampleStore 9
      ⟨"PUT", "/users/9", "\x7b\"name\":\"Bob\"\x7d"⟩ (by decide) (by decide)).2.1
      (by decide) { Name := "Bob" } (by decide) (by decide),
   (absent_user_not_found sampleCodec sampleStore 9 ⟨"DELETE", "/users/9", ""⟩ (by decide)
      (by decide)).2.2 (by decide)⟩

/-- C10: on the in-memory storage, a `PUT` answered 204 for a path suffix
denoting `n` leaves the profiles table as it was and the users table with the
same rows in the same order, each with its identity, email and creation
instant unchanged; the name is the one sent in the rows of identity `n` and
unchanged in every other row.  A `DELETE` answered 204 leaves the profiles
table as it was (the profiles of user `n` included) and the users table
without the rows of identity `n`, the other rows unchanged and in order. -/
theorem update_delete_frame (json : Codec) (s : Store) (n : Int) (r : Request)
    (hp : Atoi (TrimPrefix r.Path "/users/") = some n) :
    (r.Method = MethodPut →
      (userByIDHandler json memDB r s).resp.status = StatusNoContent →
      ∃ req : UpdateUserRequest, json.updateUser r.Body = some req ∧
        (userByIDHandler json memDB r s).state.profiles = s.profiles ∧
        List.Forall₂
          (fun u v => v.ID = u.ID ∧ v.Email = u.Email ∧ v.CreatedAt = u.CreatedAt ∧
            v.Name = (if u.ID = n then req.Name else u.Name))
          s.users (userByIDHandler json memDB r s).state.users) ∧
    (r.Method = MethodDelete →
      (userByIDHandler json memDB r s).resp.status = StatusNoContent →
      (userByIDHandler json memDB r s).state.profiles = s.profiles ∧
      (userByIDHandler json memDB r s).state.users
        = s.users.filter (fun u => decide (u.ID ≠ n))) := by
  constructor
  · intro hm hst
    rw [userByIDHandler_put json memDB r s n hm hp] at hst ⊢
    cases hb : json.updateUser r.Body with
    | none =>
      rw [hb] at hst
      simp [writeHeader] at hst
    | some req =>
      rw [hb] at hst
      by_cases hn : req.Name = ""
      · simp [hn, writeHeader] at hst
      · refine ⟨req, rfl, ?_, ?_⟩
        · simp only [hn, if_false]
          rfl
        · simp only [hn, if_false]
          show List.Forall₂ _ s.users (Store.updateUserName req.Name n s).2.users
          simp only [Store.updateUserName, List.forall₂_map_right_iff, List.forall₂_same]
          intro u _
          by_cases hu : u.ID = n <;> simp [hu]
  · intro hm _
    rw [userByIDHandler_delete json memDB r s n hm hp]
    exact ⟨rfl, rfl⟩

/-- C10 (witness): renaming and deleting user 1 of the sample storage. -/
theorem update_delete_frame_witness :
    (∃ req : UpdateUserRequest,
      sampleCodec.updateUser "\x7b\"name\":\"Bob\"\x7d" = some req ∧
      (userByIDHandler sampleCodec memDB ⟨"PUT", "/users/1", "\x7b\"name\":\"Bob\"\x7d"⟩
        sampleStore).state.profiles = sampleStore.profiles ∧
      List.Forall₂
        (fun u v => v.ID = u.ID ∧ v.Email = u.Email ∧ v.CreatedAt = u.CreatedAt ∧
          v.Name = (if u.ID = 1 then req.Name else u.Name))
        sampleStore.users
        (userByIDHandler sampleCodec memDB ⟨"PUT", "/users/1", "\x7b\"name\":\"Bob\"\x7d"⟩
          sampleStore).state.users) ∧
    ((userByIDHandler sampleCodec memDB ⟨"DELETE", "/users/1", ""⟩ sampleStore).state.profiles
        = sampleStore.profiles ∧
      (userByIDHandler sampleCodec memDB ⟨"DELETE", "/users/1", ""⟩ sampleStore).state.users
        = sampleStore.users.filter (fun u => decide (u.ID ≠ 1))) :=
  ⟨(update_delete_frame sampleCodec sampleStore 1
      ⟨"PUT", "/users/1", "\x7b\"name\":\"Bob\"\x7d"⟩ (by decide)).1 (by decide) (by decide),
   (update_delete_frame sampleCodec sampleStore 1 ⟨"DELETE", "/users/1", ""⟩
      (by decide)).2 (by decide) (by decide)⟩

end RestApi
